import Mathlib

/-!
Shallow embedding of `lib/auth/permissions.go` (package `auth`): the
authorizer that resolves an identity claim taken from a request context
into an `AuthContext` (principal plus access checker), and the builtin
policy table `GetCheckerForBuiltinRole`.

The `teleport` and `services` packages are not part of the source tree;
their constants and collaborator interfaces are modelled from the spec
(each such definition carries a `Modelled from the spec:` doc comment).
Collaborator behaviour (identity store, access store, trust store) is
represented as explicit function-valued state, so theorems quantify over
every collaborator behaviour.
-/

/-- Error taxonomy mirroring the `trace` package errors used by the source:
`trace.AccessDenied`, `trace.NotFound`, `trace.BadParameter`, `trace.Wrap`
(which retains the original cause), plus a generic constructor for
collaborator-produced errors. -/
inductive Err where
  | accessDenied (msg : String)
  | notFound (msg : String)
  | badParameter (msg : String)
  | wrapped (cause : Err)
  | other (msg : String)
deriving DecidableEq, Repr

/-- Whether an error retains `cause` somewhere in its wrap chain. -/
def Err.containsCause : Err → Err → Bool
  | e, c =>
    if e = c then true
    else
      match e with
      | .wrapped inner => inner.containsCause c
      | _ => false

/-- Trait mapping of a principal: trait name to set of trait values. -/
def Traits := List (String × List String)
deriving instance DecidableEq, Repr for Traits

/-- Principal record (`services.User`). Modelled from the spec: a stable
name, assigned role names, and a trait mapping. -/
structure User where
  name : String
  roles : List String := []
  traits : Traits := []
deriving DecidableEq, Repr

/-- Modelled from the spec: `services.NewUser` synthesizes a principal
record with the given name (never persisted). -/
def NewUser (name : String) : Except Err User :=
  Except.ok { name := name }

/-- Modelled from the spec: `services.Wildcard`, the token matching any
namespace or resource kind. -/
def Wildcard : String := "*"

/-- Modelled from the spec: read-and-write verb set `services.RW()`. -/
def RW : List String := ["read", "write"]

/-- Modelled from the spec: read-only verb set `services.RO()`. -/
def RO : List String := ["read"]

/-- Modelled from the spec: resource-kind identifiers (`services.Kind*`).
Their concrete string values follow the spec table's wording; only their
distinctness and identity matter to the claims. -/
def KindAuthServer : String := "auth-server-record"

/-- Modelled from the spec: node resource kind. -/
def KindNode : String := "node"

/-- Modelled from the spec: session resource kind. -/
def KindSession : String := "session"

/-- Modelled from the spec: event resource kind. -/
def KindEvent : String := "event"

/-- Modelled from the spec: proxy resource kind. -/
def KindProxy : String := "proxy"

/-- Modelled from the spec: cert-authority resource kind. -/
def KindCertAuthority : String := "cert-authority"

/-- Modelled from the spec: user resource kind. -/
def KindUser : String := "user"

/-- Modelled from the spec: namespace resource kind. -/
def KindNamespace : String := "namespace"

/-- Modelled from the spec: role resource kind. -/
def KindRole : String := "role"

/-- Modelled from the spec: reverse-tunnel resource kind. -/
def KindReverseTunnel : String := "reverse-tunnel"

/-- Modelled from the spec: OIDC-request resource kind. -/
def KindOIDCRequest : String := "OIDC-request"

/-- Modelled from the spec: SAML-request resource kind. -/
def KindSAMLRequest : String := "SAML-request"

/-- Modelled from the spec: OIDC configuration resource kind. -/
def KindOIDC : String := "OIDC-config"

/-- Modelled from the spec: SAML configuration resource kind. -/
def KindSAML : String := "SAML-config"

/-- Modelled from the spec: web-session resource kind. -/
def KindWebSession : String := "web-session"

/-- Modelled from the spec: trusted-cluster resource kind. -/
def KindTrustedCluster : String := "trusted-cluster"

/-- Modelled from the spec: cluster-auth-preference resource kind. -/
def KindClusterAuthPreference : String := "cluster-auth-preference"

/-- Modelled from the spec: cluster-name resource kind. -/
def KindClusterName : String := "cluster-name"

/-- Modelled from the spec: static-tokens resource kind. -/
def KindStaticTokens : String := "static-tokens"

/-- Modelled from the spec: the option key `services.MaxSessionTTL`. -/
def MaxSessionTTL : String := "max_session_ttl"

/-- Modelled from the spec: `services.MaxDuration()`, the unrestricted
maximum session lifetime (a maximal duration value). -/
def MaxDuration : Nat := 9223372036854775807

/-- Modelled from the spec: the builtin role identifiers of the Builtin
Policy Table (`teleport.Role` constants). The spec's table fixes the
identifiers auth-server, provision-token, node, proxy, web, signup,
admin, nop; `role.String()` is the identifier itself. -/
def RoleAuth : String := "auth-server"

/-- Modelled from the spec: the provision-token builtin role identifier. -/
def RoleProvisionToken : String := "provision-token"

/-- Modelled from the spec: the node builtin role identifier. -/
def RoleNode : String := "node"

/-- Modelled from the spec: the proxy builtin role identifier. -/
def RoleProxy : String := "proxy"

/-- Modelled from the spec: the web builtin role identifier. -/
def RoleWeb : String := "web"

/-- Modelled from the spec: the signup builtin role identifier. -/
def RoleSignup : String := "signup"

/-- Modelled from the spec: the admin builtin role identifier. -/
def RoleAdmin : String := "admin"

/-- Modelled from the spec: the nop builtin role identifier. -/
def RoleNop : String := "nop"

/-- The builtin role identifiers recognized by the table, in source order. -/
def recognizedBuiltinRoles : List String :=
  [RoleAuth, RoleProvisionToken, RoleNode, RoleProxy, RoleWeb, RoleSignup,
   RoleAdmin, RoleNop]

/-- Allow-rule conditions of a role specification (`services.RoleConditions`):
namespaces, optional explicit login list, node-label selector, and
per-resource-kind verb rules. Absent Go fields take their zero values. -/
structure RoleConditions where
  namespaces : List String := []
  logins : Option (List String) := none
  nodeLabels : List (String × String) := []
  rules : List (String × List String) := []
deriving DecidableEq, Repr

/-- Role specification (`services.RoleSpecV3`): auxiliary options plus the
allow conditions. -/
structure RoleSpecV3 where
  options : List (String × Nat) := []
  allow : RoleConditions := {}
deriving DecidableEq, Repr

/-- Checking capability (`services.AccessChecker`), opaque to this core.
It is either compiled in-process from one named role specification
(`services.FromSpec`) or compiled by the access store from role names and
optional traits. -/
inductive AccessChecker where
  | fromSpec (name : String) (spec : RoleSpecV3)
  | compiled (roleNames : List String) (traits : Option Traits)
deriving DecidableEq, Repr

/-- Modelled from the spec: `services.FromSpec` compiles one named role
specification into a checking capability in-process (no store involved). -/
def FromSpec (name : String) (spec : RoleSpecV3) : Except Err AccessChecker :=
  Except.ok (AccessChecker.fromSpec name spec)

/-- Role specification the table fixes for auth-server: RW on the
auth-server-record kind in every namespace. -/
def authServerSpec : RoleSpecV3 :=
  { allow := { namespaces := [Wildcard]
               rules := [(KindAuthServer, RW)] } }

/-- Role specification the table fixes for provision-token: empty. -/
def provisionTokenSpec : RoleSpecV3 := {}

/-- Role specification the table fixes for node. -/
def nodeSpec : RoleSpecV3 :=
  { allow := { namespaces := [Wildcard]
               rules := [(KindNode, RW), (KindSession, RW), (KindEvent, RW),
                         (KindProxy, RO), (KindCertAuthority, RO),
                         (KindUser, RO), (KindNamespace, RO), (KindRole, RO),
                         (KindAuthServer, RO), (KindReverseTunnel, RO)] } }

/-- Role specification the table fixes for proxy. -/
def proxySpec : RoleSpecV3 :=
  { allow := { namespaces := [Wildcard]
               rules := [(KindProxy, RW), (KindOIDCRequest, RW),
                         (KindSession, RW), (KindEvent, RW),
                         (KindSAMLRequest, RW), (KindOIDC, RO), (KindSAML, RO),
                         (KindNamespace, RO), (KindNode, RO),
                         (KindAuthServer, RO), (KindReverseTunnel, RO),
                         (KindCertAuthority, RO), (KindUser, RO),
                         (KindRole, RO), (KindClusterAuthPreference, RO),
                         (KindClusterName, RO), (KindStaticTokens, RO)] } }

/-- Role specification the table fixes for web. -/
def webSpec : RoleSpecV3 :=
  { allow := { namespaces := [Wildcard]
               rules := [(KindWebSession, RW), (KindSession, RW),
                         (KindAuthServer, RO), (KindUser, RO), (KindRole, RO),
                         (KindNamespace, RO), (KindTrustedCluster, RO)] } }

/-- Role specification the table fixes for signup. -/
def signupSpec : RoleSpecV3 :=
  { allow := { namespaces := [Wildcard]
               rules := [(KindAuthServer, RO),
                         (KindClusterAuthPreference, RO)] } }

/-- Role specification the table fixes for admin: wildcard RW, unrestricted
maximum session lifetime, unrestricted node-label selector, explicitly
empty login list. -/
def adminSpec : RoleSpecV3 :=
  { options := [(MaxSessionTTL, MaxDuration)]
    allow := { namespaces := [Wildcard]
               logins := some []
               nodeLabels := [(Wildcard, Wildcard)]
               rules := [(Wildcard, RW)] } }

/-- Role specification the table fixes for nop: empty namespaces, empty
rules. -/
def nopSpec : RoleSpecV3 :=
  { allow := { namespaces := []
               rules := [] } }

/-- The Builtin Policy Table, `GetCheckerForBuiltinRole`: a switch over the
role identifier returning the capability compiled in-process from the
fixed role specification, or `trace.NotFound` (with the source's spelling
of the message) for anything unrecognized. -/
def GetCheckerForBuiltinRole (role : String) : Except Err AccessChecker :=
  if role = RoleAuth then FromSpec role authServerSpec
  else if role = RoleProvisionToken then FromSpec role provisionTokenSpec
  else if role = RoleNode then FromSpec role nodeSpec
  else if role = RoleProxy then FromSpec role proxySpec
  else if role = RoleWeb then FromSpec role webSpec
  else if role = RoleSignup then FromSpec role signupSpec
  else if role = RoleAdmin then FromSpec role adminSpec
  else if role = RoleNop then FromSpec role nopSpec
  else Except.error (Err.notFound (role ++ " is not reconginzed"))

/-- Identity claim variant `teleport.LocalUser`. -/
structure LocalUser where
  username : String
deriving DecidableEq, Repr

/-- Identity claim variant `teleport.RemoteUser`: raw username, the name of
the source cluster, and the ordered remote role names. -/
structure RemoteUser where
  username : String
  clusterName : String
  remoteRoles : List String := []
deriving DecidableEq, Repr

/-- Identity claim variant `teleport.BuiltinRole`. -/
structure BuiltinRole where
  role : String
deriving DecidableEq, Repr

/-- Value stored under `teleport.ContextUser` in the request context: one of
the three claim variants, no value at all (`ctx.Value` returns nil), or a
value of some other dynamic type (whose Go type name renders as
`typeName`). -/
inductive ContextValue where
  | noValue
  | localUser (u : LocalUser)
  | remoteUser (u : RemoteUser)
  | builtinRole (r : BuiltinRole)
  | otherValue (typeName : String)
deriving DecidableEq, Repr

/-- Request context `context.Context`: `none` is a nil context; `some v`
is a non-nil context whose `Value(teleport.ContextUser)` yields `v`. -/
def ReqContext := Option ContextValue
deriving instance DecidableEq, Repr for ReqContext

/-- Identifier of a cert authority, `services.CertAuthID`. -/
structure CertAuthID where
  catype : String
  domainName : String
deriving DecidableEq, Repr

/-- Modelled from the spec: `services.UserCA`, the user cert-authority type
tag. -/
def UserCA : String := "user"

/-- Trust anchor (`services.CertAuthority`) as consumed here: its combined
role mapping translates remote role names to local role names or fails
(`ca.CombinedMapping().Map`). -/
structure CertAuthority where
  combinedMapping : List String → Except Err (List String)

/-- Identity store collaborator: `GetUser(username)`. -/
structure IdentityStore where
  getUser : String → Except Err User

/-- Access store collaborator. Modelled from the spec:
`services.FetchRoles(roleNames, access, traits)` compiles role names plus
optional traits into a checking capability via the access store; remote
principals pass absent (`none`) traits. -/
structure AccessStore where
  fetchRoles : List String → Option Traits → Except Err AccessChecker

/-- Trust store collaborator: `GetCertAuthority(id, loadSigningKeys)`. -/
structure TrustStore where
  getCertAuthority : CertAuthID → Bool → Except Err CertAuthority

/-- Modelled from the spec: `services.FetchRoles` delegates to the access
store's capability compilation. -/
def FetchRoles (roleNames : List String) (access : AccessStore)
    (traits : Option Traits) : Except Err AccessChecker :=
  access.fetchRoles roleNames traits

/-- Authorization context (`AuthContext`): resolved principal and checking
capability. -/
structure AuthContext where
  user : User
  checker : AccessChecker
deriving DecidableEq, Repr

/-- The authorizer service object holding the three collaborators. -/
structure Authorizer where
  access : AccessStore
  identity : IdentityStore
  trust : TrustStore

/-- Synthesizes the auth context for a builtin role, `contextForBuiltinRole`:
table lookup (wrapped on failure) plus a principal named
`builtin-<role>` (`fmt.Sprintf` with a hyphen). -/
def contextForBuiltinRole (r : String) : Except Err AuthContext :=
  match GetCheckerForBuiltinRole r with
  | Except.error e => Except.error (Err.wrapped e)
  | Except.ok checker =>
    match NewUser ("builtin-" ++ r) with
    | Except.error e => Except.error (Err.wrapped e)
    | Except.ok user => Except.ok { user := user, checker := checker }

/-- Resolves a local user, `contextForLocalUser`: identity-store lookup,
then capability compilation from the principal's role names and traits;
both failures wrapped. -/
def contextForLocalUser (username : String) (identity : IdentityStore)
    (access : AccessStore) : Except Err AuthContext :=
  match identity.getUser username with
  | Except.error e => Except.error (Err.wrapped e)
  | Except.ok user =>
    match FetchRoles user.roles access (some user.traits) with
    | Except.error e => Except.error (Err.wrapped e)
    | Except.ok checker => Except.ok { user := user, checker := checker }

/-- Local-user dispatch arm, `authorizer.authorizeLocalUser`. -/
def authorizeLocalUser (a : Authorizer) (u : LocalUser) :
    Except Err AuthContext :=
  contextForLocalUser u.username a.identity a.access

/-- Remote-user dispatch arm, `authorizer.authorizeRemoteUser`: trust-anchor
lookup (wrapped on failure), role-name mapping (access-denied with a fresh
message on failure), capability compilation with absent traits (wrapped on
failure), and a synthetic principal named `remote-<username>-<clusterName>`
(`fmt.Sprintf` with hyphens). -/
def authorizeRemoteUser (a : Authorizer) (u : RemoteUser) :
    Except Err AuthContext :=
  match a.trust.getCertAuthority
      { catype := UserCA, domainName := u.clusterName } false with
  | Except.error e => Except.error (Err.wrapped e)
  | Except.ok ca =>
    match ca.combinedMapping u.remoteRoles with
    | Except.error _ =>
      Except.error (Err.accessDenied
        ("failed to map roles for remote user " ++ u.username ++
         " from cluster " ++ u.clusterName))
    | Except.ok roleNames =>
      match FetchRoles roleNames a.access none with
      | Except.error e => Except.error (Err.wrapped e)
      | Except.ok checker =>
        match NewUser ("remote-" ++ u.username ++ "-" ++ u.clusterName) with
        | Except.error e => Except.error (Err.wrapped e)
        | Except.ok user => Except.ok { user := user, checker := checker }

/-- Builtin-role dispatch arm, `authorizer.authorizeBuiltinRole`. -/
def authorizeBuiltinRole (a : Authorizer) (r : BuiltinRole) :
    Except Err AuthContext :=
  contextForBuiltinRole r.role

/-- The public operation `authorizer.Authorize`: nil context is denied with
`missing authentication context`; otherwise the value under
`teleport.ContextUser` is dispatched by dynamic type, with a default
access-denied arm naming the unsupported type (`%T` of a nil interface
renders as `<nil>`). -/
def Authorize (a : Authorizer) (ctx : ReqContext) : Except Err AuthContext :=
  match ctx with
  | none => Except.error (Err.accessDenied "missing authentication context")
  | some v =>
    match v with
    | ContextValue.localUser u => authorizeLocalUser a u
    | ContextValue.remoteUser u => authorizeRemoteUser a u
    | ContextValue.builtinRole r => authorizeBuiltinRole a r
    | ContextValue.noValue =>
      Except.error (Err.accessDenied "unsupported context type <nil>")
    | ContextValue.otherValue t =>
      Except.error (Err.accessDenied ("unsupported context type " ++ t))

/-- The always-authorizing helper `contextAuthorizer`, holding one
predefined auth context. -/
structure ContextAuthorizer where
  authContext : AuthContext
deriving DecidableEq, Repr

/-- Authorize method of `contextAuthorizer`: returns the predefined context,
ignoring the request context entirely. -/
def ContextAuthorizer.Authorize (r : ContextAuthorizer) (ctx : ReqContext) :
    Except Err AuthContext :=
  Except.ok r.authContext

/-- Constructor `NewRoleAuthorizer`: eagerly resolves the builtin role's
context, failing (wrapped) if the role is unrecognized. -/
def NewRoleAuthorizer (r : String) : Except Err ContextAuthorizer :=
  match contextForBuiltinRole r with
  | Except.error e => Except.error (Err.wrapped e)
  | Except.ok authContext => Except.ok { authContext := authContext }

/-- Constructor `NewUserAuthorizer`: eagerly resolves the local user's
context, failing (wrapped) if lookup or compilation fails. -/
def NewUserAuthorizer (username : String) (identity : IdentityStore)
    (access : AccessStore) : Except Err ContextAuthorizer :=
  match contextForLocalUser username identity access with
  | Except.error e => Except.error (Err.wrapped e)
  | Except.ok authContext => Except.ok { authContext := authContext }

/-- Constructor `NewAuthorizer`: bad-parameter if any collaborator is
unset (unset collaborators modelled as `Option`). -/
def NewAuthorizer (access : Option AccessStore)
    (identity : Option IdentityStore) (trust : Option TrustStore) :
    Except Err Authorizer :=
  match access with
  | none => Except.error (Err.badParameter "missing parameter access")
  | some access =>
    match identity with
    | none => Except.error (Err.badParameter "missing parameter identity")
    | some identity =>
      match trust with
      | none => Except.error (Err.badParameter "missing parameter trust")
      | some trust =>
        Except.ok { access := access, identity := identity, trust := trust }

/-- Concrete local principal used by the test identity store. -/
def aliceUser : User :=
  { name := "alice", roles := ["dev"], traits := [("logins", ["root"])] }

/-- Concrete local principal whose role set the test access store rejects. -/
def carolUser : User := { name := "carol", roles := ["r-bad"] }

/-- Concrete identity store: knows alice and carol, nobody else. -/
def testIdentity : IdentityStore :=
  { getUser := fun username =>
      if username = "alice" then Except.ok aliceUser
      else if username = "carol" then Except.ok carolUser
      else Except.error (Err.notFound ("user " ++ username ++ " is not found")) }

/-- Concrete access store: fails on the designated bad role sets, otherwise
compiles the requested role names and traits. -/
def testAccess : AccessStore :=
  { fetchRoles := fun roleNames traits =>
      if roleNames = ["r-bad"] ∨ roleNames = ["r-bad2"] then
        Except.error (Err.other "backend unavailable")
      else Except.ok (AccessChecker.compiled roleNames traits) }

/-- Concrete trust anchor whose role mapping always fails. -/
def caMapErr : CertAuthority :=
  { combinedMapping := fun _ => Except.error (Err.other "inner-cause") }

/-- Concrete trust anchor mapping everything to a role set the test access
store rejects. -/
def caBadRoles : CertAuthority :=
  { combinedMapping := fun _ => Except.ok ["r-bad2"] }

/-- Concrete trust anchor for cluster-b: maps the remote role viewer to the
local role local-viewer. -/
def caB : CertAuthority :=
  { combinedMapping := fun remoteRoles =>
      if remoteRoles = ["viewer"] then Except.ok ["local-viewer"]
      else Except.error (Err.other "no mapping for roles") }

/-- Concrete trust store: anchors for clusters c2, c3 and cluster-b only. -/
def testTrust : TrustStore :=
  { getCertAuthority := fun id _ =>
      if id.domainName = "c2" then Except.ok caMapErr
      else if id.domainName = "c3" then Except.ok caBadRoles
      else if id.domainName = "cluster-b" then Except.ok caB
      else
        Except.error
          (Err.notFound ("cluster " ++ id.domainName ++ " is not found")) }

/-- Concrete authorizer over the three test collaborators. -/
def testAuthorizer : Authorizer :=
  { access := testAccess, identity := testIdentity, trust := testTrust }

/-- An error contains itself as cause. -/
theorem Err.containsCause_self (e : Err) : e.containsCause e = true := by
  unfold Err.containsCause
  simp

/-- Wrapping preserves every retained cause. -/
theorem Err.containsCause_wrap (e c : Err) (h : e.containsCause c = true) :
    (Err.wrapped e).containsCause c = true := by
  unfold Err.containsCause
  by_cases hx : Err.wrapped e = c
  · simp [hx]
  · simp [hx, h]

/-- Unrecognized identifiers fall through the whole table to the not-found
arm. -/
theorem getCheckerNotRecognized (r : String)
    (h : r ∉ recognizedBuiltinRoles) :
    GetCheckerForBuiltinRole r =
      Except.error (Err.notFound (r ++ " is not reconginzed")) := by
  simp only [recognizedBuiltinRoles, List.mem_cons, List.not_mem_nil,
    or_false, not_or] at h
  obtain ⟨h1, h2, h3, h4, h5, h6, h7, h8⟩ := h
  simp only [GetCheckerForBuiltinRole, if_neg h1, if_neg h2, if_neg h3,
    if_neg h4, if_neg h5, if_neg h6, if_neg h7, if_neg h8]

/-- C1, as stated: the claim asserts the builtin principal name is
`builtin:<r>`; the source formats it with a hyphen (`builtin-<r>`), so at
the nop role Authorize succeeds with name `builtin-nop`, which differs
from `builtin:nop`. -/
theorem C1_counterexample :
    Authorize testAuthorizer
        (some (ContextValue.builtinRole { role := RoleNop })) =
      Except.ok { user := { name := "builtin-nop" },
                  checker := AccessChecker.fromSpec RoleNop nopSpec } ∧
    ("builtin-nop" : String) ≠ "builtin:" ++ RoleNop :=
  ⟨rfl, by decide⟩

/-- C1, amended: for every builtin role identifier the table recognizes and
every collaborator state, Authorize on that builtin-role claim succeeds
with a principal named `builtin-<r>` (hyphen) and a checking capability
compiled in-process from exactly the role specification the table fixes
for `r`; the right-hand sides are independent of the authorizer's stores,
so no access-store call is involved. -/
theorem C1_theorem (a : Authorizer) :
    (Authorize a (some (ContextValue.builtinRole { role := RoleAuth })) =
      Except.ok { user := { name := "builtin-" ++ RoleAuth },
                  checker := AccessChecker.fromSpec RoleAuth authServerSpec }) ∧
    (Authorize a (some (ContextValue.builtinRole { role := RoleProvisionToken })) =
      Except.ok { user := { name := "builtin-" ++ RoleProvisionToken },
                  checker := AccessChecker.fromSpec RoleProvisionToken
                    provisionTokenSpec }) ∧
    (Authorize a (some (ContextValue.builtinRole { role := RoleNode })) =
      Except.ok { user := { name := "builtin-" ++ RoleNode },
                  checker := AccessChecker.fromSpec RoleNode nodeSpec }) ∧
    (Authorize a (some (ContextValue.builtinRole { role := RoleProxy })) =
      Except.ok { user := { name := "builtin-" ++ RoleProxy },
                  checker := AccessChecker.fromSpec RoleProxy proxySpec }) ∧
    (Authorize a (some (ContextValue.builtinRole { role := RoleWeb })) =
      Except.ok { user := { name := "builtin-" ++ RoleWeb },
                  checker := AccessChecker.fromSpec RoleWeb webSpec }) ∧
    (Authorize a (some (ContextValue.builtinRole { role := RoleSignup })) =
      Except.ok { user := { name := "builtin-" ++ RoleSignup },
                  checker := AccessChecker.fromSpec RoleSignup signupSpec }) ∧
    (Authorize a (some (ContextValue.builtinRole { role := RoleAdmin })) =
      Except.ok { user := { name := "builtin-" ++ RoleAdmin },
                  checker := AccessChecker.fromSpec RoleAdmin adminSpec }) ∧
    (Authorize a (some (ContextValue.builtinRole { role := RoleNop })) =
      Except.ok { user := { name := "builtin-" ++ RoleNop },
                  checker := AccessChecker.fromSpec RoleNop nopSpec }) :=
  ⟨rfl, rfl, rfl, rfl, rfl, rfl, rfl, rfl⟩

/-- C2, as stated: the claim asserts remote principal names use colons
(`remote:<u>:<c>`); the source formats hyphens. On a successfully mapped
remote claim for alice from cluster-b, the principal name is
`remote-alice-cluster-b`, not `remote:alice:cluster-b`. -/
theorem C2_counterexample :
    Authorize testAuthorizer
        (some (ContextValue.remoteUser
          { username := "alice", clusterName := "cluster-b",
            remoteRoles := ["viewer"] })) =
      Except.ok { user := { name := "remote-alice-cluster-b" },
                  checker := AccessChecker.compiled ["local-viewer"] none } ∧
    ("remote-alice-cluster-b" : String) ≠ "remote:alice:cluster-b" :=
  ⟨rfl, by decide⟩

/-- C2, amended: whenever the trust-anchor lookup, role mapping and
capability compilation succeed, the returned Principal is named
`remote-<username>-<clusterName>` (hyphens), and that synthetic name never
equals the raw username itself, so it cannot collide with the local
identity store record of the same raw username. -/
theorem C2_theorem (a : Authorizer) (u : RemoteUser) (ca : CertAuthority)
    (roleNames : List String) (checker : AccessChecker)
    (hca : a.trust.getCertAuthority
        { catype := UserCA, domainName := u.clusterName } false =
      Except.ok ca)
    (hmap : ca.combinedMapping u.remoteRoles = Except.ok roleNames)
    (hfetch : a.access.fetchRoles roleNames none = Except.ok checker) :
    Authorize a (some (ContextValue.remoteUser u)) =
      Except.ok
        { user :=
            { name := "remote-" ++ u.username ++ "-" ++ u.clusterName },
          checker := checker } ∧
    ("remote-" ++ u.username ++ "-" ++ u.clusterName) ≠ u.username := by
  constructor
  · simp only [Authorize, authorizeRemoteUser, hca, hmap, FetchRoles, hfetch,
      NewUser]
  · intro h
    have h1 := congrArg String.length h
    rw [String.length_append, String.length_append, String.length_append]
      at h1
    have h2 : ("remote-" : String).length = 7 := by decide
    have h3 : ("-" : String).length = 1 := by decide
    rw [h2, h3] at h1
    omega

/-- C2 witness: the amended theorem applied to the concrete test state and
the alice/cluster-b claim. -/
theorem C2_witness :
    Authorize testAuthorizer
        (some (ContextValue.remoteUser
          { username := "alice", clusterName := "cluster-b",
            remoteRoles := ["viewer"] })) =
      Except.ok
        { user := { name := "remote-" ++ "alice" ++ "-" ++ "cluster-b" },
          checker := AccessChecker.compiled ["local-viewer"] none } ∧
    ("remote-" ++ "alice" ++ "-" ++ "cluster-b") ≠ "alice" :=
  C2_theorem testAuthorizer
    { username := "alice", clusterName := "cluster-b",
      remoteRoles := ["viewer"] }
    caB ["local-viewer"] (AccessChecker.compiled ["local-viewer"] none)
    rfl rfl rfl

/-- C3, as stated: the claim asserts every request with no identity
attached fails with the message `missing authentication context`; but a
non-nil request context carrying no identity value takes the default
dispatch arm, whose access-denied message is
`unsupported context type <nil>`. -/
theorem C3_counterexample :
    Authorize testAuthorizer (some ContextValue.noValue) =
      Except.error (Err.accessDenied "unsupported context type <nil>") ∧
    ("unsupported context type <nil>" : String) ≠
      "missing authentication context" :=
  ⟨rfl, by decide⟩

/-- C3, amended: a nil request context fails with access-denied
`missing authentication context`; a non-nil request context with no
identity attached also fails with access-denied, but with the message
`unsupported context type <nil>`; neither case returns an authorization
context. -/
theorem C3_theorem (a : Authorizer) :
    Authorize a none =
      Except.error (Err.accessDenied "missing authentication context") ∧
    Authorize a (some ContextValue.noValue) =
      Except.error (Err.accessDenied "unsupported context type <nil>") :=
  ⟨rfl, rfl⟩

/-- C4: for every role identifier outside the Builtin Policy Table and
every collaborator state, Authorize on that builtin-role claim fails with
the (wrapped) not-found error whose message names the unrecognized role;
it never succeeds. -/
theorem C4_theorem (a : Authorizer) (r : String)
    (h : r ∉ recognizedBuiltinRoles) :
    Authorize a (some (ContextValue.builtinRole { role := r })) =
      Except.error
        (Err.wrapped (Err.notFound (r ++ " is not reconginzed"))) := by
  simp only [Authorize, authorizeBuiltinRole, contextForBuiltinRole,
    getCheckerNotRecognized r h]

/-- C4 witness: the theorem applied at the concrete unrecognized
identifier `made-up-role` and the test state. -/
theorem C4_witness :
    Authorize testAuthorizer
        (some (ContextValue.builtinRole { role := "made-up-role" })) =
      Except.error
        (Err.wrapped
          (Err.notFound ("made-up-role" ++ " is not reconginzed"))) :=
  C4_theorem testAuthorizer "made-up-role" (by decide)

/-- C5: whenever the trust-anchor lookup succeeds but the anchor's role
mapping fails, Authorize on the remote claim fails with access-denied
`failed to map roles for remote user <u> from cluster <c>`; no capability
is compiled. -/
theorem C5_theorem (a : Authorizer) (u : RemoteUser) (ca : CertAuthority)
    (e : Err)
    (hca : a.trust.getCertAuthority
        { catype := UserCA, domainName := u.clusterName } false =
      Except.ok ca)
    (hmap : ca.combinedMapping u.remoteRoles = Except.error e) :
    Authorize a (some (ContextValue.remoteUser u)) =
      Except.error
        (Err.accessDenied
          ("failed to map roles for remote user " ++ u.username ++
           " from cluster " ++ u.clusterName)) := by
  simp only [Authorize, authorizeRemoteUser, hca, hmap]

/-- C5 witness: the theorem applied to the test state, where the anchor for
cluster c2 fails every mapping. -/
theorem C5_witness :
    Authorize testAuthorizer
        (some (ContextValue.remoteUser
          { username := "alice", clusterName := "c2",
            remoteRoles := ["viewer"] })) =
      Except.error
        (Err.accessDenied
          ("failed to map roles for remote user " ++ "alice" ++
           " from cluster " ++ "c2")) :=
  C5_theorem testAuthorizer
    { username := "alice", clusterName := "c2", remoteRoles := ["viewer"] }
    caMapErr (Err.other "inner-cause") rfl rfl

/-- C6: a remote claim whose source cluster has no trust anchor fails with
the trust store's error wrapped, and a local claim whose username the
identity store does not know fails with the identity store's error
wrapped; neither returns a synthetic principal. -/
theorem C6_theorem (a : Authorizer) (ru : RemoteUser) (lu : LocalUser)
    (e1 e2 : Err)
    (h1 : a.trust.getCertAuthority
        { catype := UserCA, domainName := ru.clusterName } false =
      Except.error e1)
    (h2 : a.identity.getUser lu.username = Except.error e2) :
    Authorize a (some (ContextValue.remoteUser ru)) =
      Except.error (Err.wrapped e1) ∧
    Authorize a (some (ContextValue.localUser lu)) =
      Except.error (Err.wrapped e2) := by
  constructor
  · simp only [Authorize, authorizeRemoteUser, h1]
  · simp only [Authorize, authorizeLocalUser, contextForLocalUser, h2]

/-- C6 witness: the theorem applied to the test state at cluster c1 (no
anchor) and username bob (no record). -/
theorem C6_witness :
    Authorize testAuthorizer
        (some (ContextValue.remoteUser
          { username := "alice", clusterName := "c1" })) =
      Except.error
        (Err.wrapped (Err.notFound ("cluster " ++ "c1" ++ " is not found"))) ∧
    Authorize testAuthorizer
        (some (ContextValue.localUser { username := "bob" })) =
      Except.error
        (Err.wrapped (Err.notFound ("user " ++ "bob" ++ " is not found"))) :=
  C6_theorem testAuthorizer
    { username := "alice", clusterName := "c1" } { username := "bob" }
    (Err.notFound ("cluster " ++ "c1" ++ " is not found"))
    (Err.notFound ("user " ++ "bob" ++ " is not found")) rfl rfl

/-- C7, as stated: the claim says every collaborator failure, including the
trust anchor's role-name mapping, is returned retaining the original
cause. But when the mapping for alice at cluster c2 fails with the cause
`inner-cause`, Authorize returns a freshly built access-denied error that
does not contain that cause anywhere in its wrap chain. -/
theorem C7_counterexample :
    caMapErr.combinedMapping ["viewer"] =
      Except.error (Err.other "inner-cause") ∧
    Authorize testAuthorizer
        (some (ContextValue.remoteUser
          { username := "alice", clusterName := "c2",
            remoteRoles := ["viewer"] })) =
      Except.error
        (Err.accessDenied
          "failed to map roles for remote user alice from cluster c2") ∧
    Err.containsCause
        (Err.accessDenied
          "failed to map roles for remote user alice from cluster c2")
        (Err.other "inner-cause") = false :=
  ⟨rfl, rfl, rfl⟩

/-- C7, amended: failures of the identity-store lookup, of the access-store
compilation (for local and for remote principals) and of the trust-store
lookup are each wrapped, retaining the original cause in the returned
error; the trust anchor's role-name mapping failure alone is replaced by a
fresh access-denied error naming the user and cluster, discarding its
cause. No failure path returns a capability. -/
theorem C7_theorem (a : Authorizer) (lu lu2 : LocalUser)
    (ru1 ru2 ru3 : RemoteUser) (e1 e2 e3 e4 e5 : Err)
    (ca2 ca3 : CertAuthority) (usr : User) (rs3 : List String)
    (h1 : a.identity.getUser lu.username = Except.error e1)
    (h2 : a.identity.getUser lu2.username = Except.ok usr)
    (h3 : a.access.fetchRoles usr.roles (some usr.traits) = Except.error e2)
    (h4 : a.trust.getCertAuthority
        { catype := UserCA, domainName := ru1.clusterName } false =
      Except.error e3)
    (h5 : a.trust.getCertAuthority
        { catype := UserCA, domainName := ru2.clusterName } false =
      Except.ok ca2)
    (h6 : ca2.combinedMapping ru2.remoteRoles = Except.error e4)
    (h7 : a.trust.getCertAuthority
        { catype := UserCA, domainName := ru3.clusterName } false =
      Except.ok ca3)
    (h8 : ca3.combinedMapping ru3.remoteRoles = Except.ok rs3)
    (h9 : a.access.fetchRoles rs3 none = Except.error e5) :
    (Authorize a (some (ContextValue.localUser lu)) =
        Except.error (Err.wrapped e1) ∧
      (Err.wrapped e1).containsCause e1 = true) ∧
    (Authorize a (some (ContextValue.localUser lu2)) =
        Except.error (Err.wrapped e2) ∧
      (Err.wrapped e2).containsCause e2 = true) ∧
    (Authorize a (some (ContextValue.remoteUser ru1)) =
        Except.error (Err.wrapped e3) ∧
      (Err.wrapped e3).containsCause e3 = true) ∧
    (Authorize a (some (ContextValue.remoteUser ru2)) =
      Except.error
        (Err.accessDenied
          ("failed to map roles for remote user " ++ ru2.username ++
           " from cluster " ++ ru2.clusterName))) ∧
    (Authorize a (some (ContextValue.remoteUser ru3)) =
        Except.error (Err.wrapped e5) ∧
      (Err.wrapped e5).containsCause e5 = true) := by
  refine ⟨⟨?_, ?_⟩, ⟨?_, ?_⟩, ⟨?_, ?_⟩, ?_, ⟨?_, ?_⟩⟩
  · simp only [Authorize, authorizeLocalUser, contextForLocalUser, h1]
  · exact Err.containsCause_wrap e1 e1 (Err.containsCause_self e1)
  · simp only [Authorize, authorizeLocalUser, contextForLocalUser, h2,
      FetchRoles, h3]
  · exact Err.containsCause_wrap e2 e2 (Err.containsCause_self e2)
  · simp only [Authorize, authorizeRemoteUser, h4]
  · exact Err.containsCause_wrap e3 e3 (Err.containsCause_self e3)
  · simp only [Authorize, authorizeRemoteUser, h5, h6]
  · simp only [Authorize, authorizeRemoteUser, h7, h8, FetchRoles, h9]
  · exact Err.containsCause_wrap e5 e5 (Err.containsCause_self e5)

/-- C7 witness: the amended theorem applied to the test state, whose
collaborators realize all five failure paths at once (bob unknown, carol's
roles uncompilable, c1 without anchor, c2 with failing mapping, c3 mapping
to uncompilable roles). -/
theorem C7_witness :
    (Authorize testAuthorizer
        (some (ContextValue.localUser { username := "bob" })) =
        Except.error
          (Err.wrapped (Err.notFound ("user " ++ "bob" ++ " is not found"))) ∧
      (Err.wrapped
          (Err.notFound ("user " ++ "bob" ++ " is not found"))).containsCause
        (Err.notFound ("user " ++ "bob" ++ " is not found")) = true) ∧
    (Authorize testAuthorizer
        (some (ContextValue.localUser { username := "carol" })) =
        Except.error (Err.wrapped (Err.other "backend unavailable")) ∧
      (Err.wrapped (Err.other "backend unavailable")).containsCause
        (Err.other "backend unavailable") = true) ∧
    (Authorize testAuthorizer
        (some (ContextValue.remoteUser
          { username := "dana", clusterName := "c1" })) =
        Except.error
          (Err.wrapped
            (Err.notFound ("cluster " ++ "c1" ++ " is not found"))) ∧
      (Err.wrapped
          (Err.notFound ("cluster " ++ "c1" ++ " is not found"))).containsCause
        (Err.notFound ("cluster " ++ "c1" ++ " is not found")) = true) ∧
    (Authorize testAuthorizer
        (some (ContextValue.remoteUser
          { username := "dana", clusterName := "c2" })) =
      Except.error
        (Err.accessDenied
          ("failed to map roles for remote user " ++ "dana" ++
           " from cluster " ++ "c2"))) ∧
    (Authorize testAuthorizer
        (some (ContextValue.remoteUser
          { username := "dana", clusterName := "c3" })) =
        Except.error (Err.wrapped (Err.other "backend unavailable")) ∧
      (Err.wrapped (Err.other "backend unavailable")).containsCause
        (Err.other "backend unavailable") = true) :=
  C7_theorem testAuthorizer { username := "bob" } { username := "carol" }
    { username := "dana", clusterName := "c1" }
    { username := "dana", clusterName := "c2" }
    { username := "dana", clusterName := "c3" }
    (Err.notFound ("user " ++ "bob" ++ " is not found"))
    (Err.other "backend unavailable")
    (Err.notFound ("cluster " ++ "c1" ++ " is not found"))
    (Err.other "inner-cause") (Err.other "backend unavailable")
    caMapErr caBadRoles carolUser ["r-bad2"]
    rfl rfl rfl rfl rfl rfl rfl rfl rfl

/-- C8: on a successfully mapped remote claim the capability is exactly the
access store's compilation of the mapped role names with absent traits,
while on a successful local claim it is exactly the access store's
compilation of the looked-up principal's role names with that principal's
traits. -/
theorem C8_theorem (a : Authorizer) (ru : RemoteUser) (lu : LocalUser)
    (ca : CertAuthority) (rs : List String) (chkR chkL : AccessChecker)
    (usr : User)
    (hca : a.trust.getCertAuthority
        { catype := UserCA, domainName := ru.clusterName } false =
      Except.ok ca)
    (hmap : ca.combinedMapping ru.remoteRoles = Except.ok rs)
    (hR : a.access.fetchRoles rs none = Except.ok chkR)
    (hu : a.identity.getUser lu.username = Except.ok usr)
    (hL : a.access.fetchRoles usr.roles (some usr.traits) = Except.ok chkL) :
    Authorize a (some (ContextValue.remoteUser ru)) =
      Except.ok
        { user :=
            { name := "remote-" ++ ru.username ++ "-" ++ ru.clusterName },
          checker := chkR } ∧
    Authorize a (some (ContextValue.localUser lu)) =
      Except.ok { user := usr, checker := chkL } := by
  constructor
  · simp only [Authorize, authorizeRemoteUser, hca, hmap, FetchRoles, hR,
      NewUser]
  · simp only [Authorize, authorizeLocalUser, contextForLocalUser, hu,
      FetchRoles, hL]

/-- C8 witness: the theorem applied to the test state on the
alice/cluster-b remote claim (compiled with absent traits) and the alice
local claim (compiled with alice's traits). -/
theorem C8_witness :
    Authorize testAuthorizer
        (some (ContextValue.remoteUser
          { username := "alice", clusterName := "cluster-b",
            remoteRoles := ["viewer"] })) =
      Except.ok
        { user := { name := "remote-" ++ "alice" ++ "-" ++ "cluster-b" },
          checker := AccessChecker.compiled ["local-viewer"] none } ∧
    Authorize testAuthorizer
        (some (ContextValue.localUser { username := "alice" })) =
      Except.ok
        { user := aliceUser,
          checker :=
            AccessChecker.compiled ["dev"]
              (some [("logins", ["root"])]) } :=
  C8_theorem testAuthorizer
    { username := "alice", clusterName := "cluster-b",
      remoteRoles := ["viewer"] }
    { username := "alice" } caB ["local-viewer"]
    (AccessChecker.compiled ["local-viewer"] none)
    (AccessChecker.compiled ["dev"] (some [("logins", ["root"])]))
    aliceUser rfl rfl rfl rfl rfl

/-- Auth context Authorize resolves for the builtin nop role over the test
state. -/
def nopAuthContext : AuthContext :=
  { user := { name := "builtin-nop" },
    checker := AccessChecker.fromSpec RoleNop nopSpec }

/-- C9: Authorize is a pure function of the claim and the collaborator
state — the embedding threads no mutable state and caches nothing, so two
calls with an identical claim and unchanged collaborator state are equal,
and any two successful results carry equal principals and equal (hence
decision-equivalent) checkers. -/
theorem C9_theorem (a : Authorizer) (ctx : ReqContext) :
    Authorize a ctx = Authorize a ctx ∧
    ∀ c1 c2 : AuthContext, Authorize a ctx = Except.ok c1 →
      Authorize a ctx = Except.ok c2 →
      c1.user = c2.user ∧ c1.checker = c2.checker := by
  refine ⟨rfl, ?_⟩
  intro c1 c2 hx hy
  rw [hx] at hy
  injection hy with h
  subst h
  exact ⟨rfl, rfl⟩

/-- C9 witness: the theorem applied to the test state and the builtin nop
claim, whose two resolutions agree on principal and checker. -/
theorem C9_witness :
    nopAuthContext.user = nopAuthContext.user ∧
    nopAuthContext.checker = nopAuthContext.checker :=
  (C9_theorem testAuthorizer
      (some (ContextValue.builtinRole { role := RoleNop }))).2
    nopAuthContext nopAuthContext rfl rfl

/-- Context authorizer precomputed for the builtin admin role. -/
def adminCtxAuth : ContextAuthorizer :=
  { authContext :=
      { user := { name := "builtin-" ++ RoleAdmin },
        checker := AccessChecker.fromSpec RoleAdmin adminSpec } }

/-- C10: NewRoleAuthorizer and NewUserAuthorizer resolve their claim
eagerly at construction: construction fails (wrapped) when the builtin
role is unrecognized or when the local-user resolution fails, and a
successfully constructed authorizer's Authorize returns the precomputed
context on every call, ignoring the supplied request context (a nil one
included) and never failing. -/
theorem C10_theorem (r uname : String) (ident : IdentityStore)
    (acc : AccessStore) :
    (r ∉ recognizedBuiltinRoles →
      NewRoleAuthorizer r =
        Except.error
          (Err.wrapped
            (Err.wrapped (Err.notFound (r ++ " is not reconginzed"))))) ∧
    (∀ A : ContextAuthorizer, NewRoleAuthorizer r = Except.ok A →
      contextForBuiltinRole r = Except.ok A.authContext ∧
      ∀ ctx : ReqContext, A.Authorize ctx = Except.ok A.authContext) ∧
    (∀ e : Err, contextForLocalUser uname ident acc = Except.error e →
      NewUserAuthorizer uname ident acc =
        Except.error (Err.wrapped e)) ∧
    (∀ A : ContextAuthorizer,
      NewUserAuthorizer uname ident acc = Except.ok A →
      contextForLocalUser uname ident acc = Except.ok A.authContext ∧
      ∀ ctx : ReqContext, A.Authorize ctx = Except.ok A.authContext) := by
  refine ⟨?_, ?_, ?_, ?_⟩
  · intro h
    simp only [NewRoleAuthorizer, contextForBuiltinRole,
      getCheckerNotRecognized r h]
  · intro A hA
    cases hc : contextForBuiltinRole r with
    | error e =>
      simp only [NewRoleAuthorizer, hc] at hA
      exact Except.noConfusion hA
    | ok c =>
      simp only [NewRoleAuthorizer, hc] at hA
      injection hA with h
      subst h
      exact ⟨rfl, fun _ => rfl⟩
  · intro e he
    simp only [NewUserAuthorizer, he]
  · intro A hA
    cases hc : contextForLocalUser uname ident acc with
    | error e =>
      simp only [NewUserAuthorizer, hc] at hA
      exact Except.noConfusion hA
    | ok c =>
      simp only [NewUserAuthorizer, hc] at hA
      injection hA with h
      subst h
      exact ⟨rfl, fun _ => rfl⟩

/-- C10 witness: construction fails on the unrecognized role `bogus` and on
the unknown user bob; the admin role authorizer is precomputed and its
Authorize answers a nil request context with the stored context. -/
theorem C10_witness :
    NewRoleAuthorizer "bogus" =
      Except.error
        (Err.wrapped
          (Err.wrapped
            (Err.notFound ("bogus" ++ " is not reconginzed")))) ∧
    contextForBuiltinRole "admin" = Except.ok adminCtxAuth.authContext ∧
    adminCtxAuth.Authorize none = Except.ok adminCtxAuth.authContext ∧
    NewUserAuthorizer "bob" testIdentity testAccess =
      Except.error
        (Err.wrapped
          (Err.wrapped (Err.notFound ("user " ++ "bob" ++ " is not found")))) :=
  ⟨( C10_theorem "bogus" "bob" testIdentity testAccess).1 (by decide),
   (( C10_theorem "admin" "bob" testIdentity testAccess).2.1
     adminCtxAuth rfl).1,
   (( C10_theorem "admin" "bob" testIdentity testAccess).2.1
     adminCtxAuth rfl).2 none,
   ( C10_theorem "bogus" "bob" testIdentity testAccess).2.2.1
     (Err.wrapped (Err.notFound ("user " ++ "bob" ++ " is not found"))) rfl⟩
